import Mathlib

/-!
Shallow embedding of the VK/Telegram ingestion, deduplication and
classification pipeline (src/vk_parser.py, src/tg_parser.py,
src/database.py), together with proofs of the specified properties.

Texts and identifiers are modelled as `List Char`; Python's substring
operator `in`, `str.lower()`, `str.isdigit()` and truthiness of strings,
lists and optional integers are given explicit counterparts.
-/

namespace Pipeline

/-- ASCII and Cyrillic lowercase mapping; covers every character the
configured keyword lists and claims use (Python's `str.lower()` on the
relevant alphabets: A-Z and А-Я shift by 32, Ё maps to ё). -/
def lowerChar (c : Char) : Char :=
  if 'A' ≤ c ∧ c ≤ 'Z' then Char.ofNat (c.toNat + 32)
  else if 'А' ≤ c ∧ c ≤ 'Я' then Char.ofNat (c.toNat + 32)
  else if c = 'Ё' then 'ё'
  else c

def lowerStr (s : List Char) : List Char := s.map lowerChar

/-- Python's `needle in hay` on strings: `needle` occurs as a contiguous
substring of `hay` (the empty needle always matches). -/
def substr (needle hay : List Char) : Bool :=
  hay.tails.any (fun t => needle.isPrefixOf t)

/-- `VKParser.contains_ad_keywords` / the same check used for exclude
keywords: `any(keyword.lower() in text.lower() for keyword in keywords)`. -/
def contains_ad_keywords (text : List Char) (keywords : List (List Char)) : Bool :=
  keywords.any (fun k => substr (lowerStr k) (lowerStr text))

/-- `VKParser.contains_date`: relative-day words and month names. -/
def date_indicators : List (List Char) :=
  ["сегодня".data, "завтра".data, "вчера".data,
   "января".data, "февраля".data, "марта".data, "апреля".data, "мая".data,
   "июня".data, "июля".data, "августа".data, "сентября".data, "октября".data,
   "ноября".data, "декабря".data]

def contains_date (text : List Char) : Bool :=
  date_indicators.any (fun ind => substr ind (lowerStr text))

/-- `VKParser.contains_price`: currency words and symbols. -/
def price_indicators : List (List Char) :=
  ["руб".data, "₽".data, "р.".data, "цена".data, "стоимость".data]

def contains_price (text : List Char) : Bool :=
  price_indicators.any (fun ind => substr ind (lowerStr text))

/-- The three `buy_sell` keyword families, in the order the code tests them. -/
def giveaway_words : List (List Char) := ["отдам".data, "даром".data, "бесплатно".data]
def buy_words : List (List Char) := ["куплю".data, "ищу".data, "нужен".data, "приобрету".data]
def sell_words : List (List Char) := ["продам".data, "продаю".data, "реализую".data, "цена".data]

/-- Row of the `topics` table as the parsers consume it. -/
structure Topic where
  topic_id : Int
  name : List Char
deriving DecidableEq, Repr

/-- The topic catalog (`db.get_topics()` dictionary, keyed by topic id string);
`topics.get(key)` is association-list lookup. -/
abbrev Topics := List (List Char × Topic)

def getTopic (topics : Topics) (k : List Char) : Option Topic :=
  (List.find? (fun p => p.1 == k) topics).map (fun p => p.2)

/-- A configured VK group (row of `vk_groups` after JSON decoding). -/
structure VKGroup where
  group_id : List Char
  name : List Char
  target_topic : List Char
  all_posts : Bool
  classifier_type : List Char
  keywords : List (List Char)
  exclude_keywords : List (List Char)
  require_date_or_price : Bool
deriving DecidableEq, Repr

/-- `VKParser.determine_target_topic` on the post's text. -/
def determine_target_topic (text : List Char) (group : VKGroup) (topics : Topics) :
    Option Topic :=
  let t := lowerStr text
  if group.all_posts then getTopic topics group.target_topic
  else if group.classifier_type == "buy_sell".data then
    if giveaway_words.any (fun w => substr w t) then getTopic topics "otdam".data
    else if buy_words.any (fun w => substr w t) then getTopic topics "kuplyu".data
    else if sell_words.any (fun w => substr w t) then getTopic topics "prodam".data
    else none
  else if group.classifier_type == "keywords".data && !group.keywords.isEmpty then
    if group.keywords.any (fun k => substr (lowerStr k) t) then
      getTopic topics group.target_topic
    else none
  else none

/-- Row of the `processed_posts` table (the dedup ledger); `id` and
`processed_at` are database-generated and not consulted by the core. -/
structure PRecord where
  source_type : List Char
  source_id : List Char
  source_group : List Char
  content_hash : List Char
  target_topic_id : Int
deriving DecidableEq, Repr

/-- The `processed_posts` store. -/
abbrev Ledger := List PRecord

def keyMatches (r : PRecord) (st sid sg : List Char) : Bool :=
  r.source_type == st && r.source_id == sid && r.source_group == sg

/-- `Database.is_processed`: membership of the dedup key
`(source_type, source_id, source_group)`. -/
def is_processed (l : Ledger) (st sid sg : List Char) : Bool :=
  List.any l (fun r => keyMatches r st sid sg)

/-- `Database.mark_processed`: `INSERT OR IGNORE` under the unique
constraint on `(source_type, source_id, source_group)` — inserts a fresh
row when the key is absent, leaves the table unchanged when present, and
reports `True` either way. -/
def mark_processed (l : Ledger) (st sid sg : List Char) (tid : Int) (h : List Char) :
    Ledger × Bool :=
  if is_processed l st sid sg then (l, true)
  else (l ++ [⟨st, sid, sg, h, tid⟩], true)

/-- Number of ledger rows carrying a given dedup key. -/
def countKey (l : Ledger) (st sid sg : List Char) : Nat :=
  List.countP (fun r => keyMatches r st sid sg) l

/-- A fetched VK wall post, with the fields `process_post` reads. -/
structure VKPost where
  id : Int
  text : List Char
  signer_id : Option Int
  from_id : Option Int
deriving DecidableEq, Repr

/-- The delivery request the coordinator emits for an accepted item
(the formatting/link rendering of `message_formatter` is the external
delivery collaborator's concern; the request carries the classified
text, the resolved topic, and the item's identity). -/
structure Delivery where
  text : List Char
  topic : Topic
  source_kind : List Char
  source_item_id : List Char
  source_collection : List Char
deriving DecidableEq, Repr

/-- The content digest (`hashlib.md5(text.encode()).hexdigest()`) is an
external pure function of the text; the pipeline is parameterized by it. -/
abbrev Hash := List Char → List Char

/-- `VKParser.process_post`: dedup check, empty-text gate, ad-keyword and
exclude-keyword filters, date/price gate, classification, then delivery
and recording. Returns the updated ledger and the emitted delivery, if any. -/
def process_post (hash : Hash) (l : Ledger) (post : VKPost) (group : VKGroup)
    (topics : Topics) (ad_keywords : List (List Char)) :
    Ledger × Option Delivery :=
  if is_processed l "vk".data (toString post.id).data group.group_id then (l, none)
  else if post.text.isEmpty && !group.all_posts then (l, none)
  else if contains_ad_keywords post.text ad_keywords then (l, none)
  else if !group.exclude_keywords.isEmpty &&
      contains_ad_keywords post.text group.exclude_keywords then (l, none)
  else if group.require_date_or_price &&
      !(contains_date post.text || contains_price post.text) then (l, none)
  else
    match determine_target_topic post.text group topics with
    | none => (l, none)
    | some topic =>
      ((mark_processed l "vk".data (toString post.id).data group.group_id
          topic.topic_id (hash post.text)).1,
        some ⟨post.text, topic, "vk".data, (toString post.id).data, group.group_id⟩)

/-- A configured Telegram source (row of `telegram_sources`); `topic_id`
is the optional sub-topic (`NULL` maps to `none`). -/
structure TGSource where
  chat_id : Int
  topic_id : Option Int
  name : List Char
  target_topic : List Char
  all_posts : Bool
  classifier_type : List Char
  keywords : List (List Char)
  show_author : Bool
deriving DecidableEq, Repr

/-- An inbound Telegram message, with the fields the handler reads;
`reply_to_msg_id` is `message.reply_to.reply_to_msg_id` when a reply
header is present. -/
structure TGMessage where
  chat_id : Int
  id : Int
  reply_to_msg_id : Option Int
  text : Option (List Char)
  caption : Option (List Char)
deriving DecidableEq, Repr

/-- Python truthiness of an optional integer: `None` and `0` are falsy. -/
def truthyOptInt : Option Int → Bool
  | none => false
  | some n => n != 0

/-- `TelegramParser.find_source`: first configured source whose chat id
matches; when the source specifies a truthy sub-topic it must equal the
event's sub-topic, otherwise any sub-topic matches. -/
def find_source (sources : List TGSource) (chat_id : Int) (topic_id : Option Int) :
    Option TGSource :=
  List.find? (fun s => s.chat_id == chat_id &&
    (if truthyOptInt s.topic_id then s.topic_id == topic_id else true)) sources

/-- `TelegramParser.determine_target_topic` (same strategies as VK). -/
def tg_determine_target_topic (text : List Char) (source : TGSource) (topics : Topics) :
    Option Topic :=
  let t := lowerStr text
  if source.all_posts then getTopic topics source.target_topic
  else if source.classifier_type == "buy_sell".data then
    if giveaway_words.any (fun w => substr w t) then getTopic topics "otdam".data
    else if buy_words.any (fun w => substr w t) then getTopic topics "kuplyu".data
    else if sell_words.any (fun w => substr w t) then getTopic topics "prodam".data
    else none
  else if source.classifier_type == "keywords".data && !source.keywords.isEmpty then
    if source.keywords.any (fun k => substr (lowerStr k) t) then
      getTopic topics source.target_topic
    else none
  else none

/-- Python `message.text or message.caption or ""`: the first truthy
(non-empty, non-None) string, else the empty string. -/
def textOrCaption (text caption : Option (List Char)) : List Char :=
  match text with
  | some s => if !s.isEmpty then s else
      match caption with
      | some c => if !c.isEmpty then c else []
      | none => []
  | none =>
      match caption with
      | some c => if !c.isEmpty then c else []
      | none => []

/-- `TelegramParser.handle_new_message` (body inside its try-block):
source matching, dedup check, empty-text gate, classification, delivery
and recording. The handler performs no ad-keyword or exclude-keyword
filtering. -/
def handle_new_message (hash : Hash) (l : Ledger) (m : TGMessage)
    (sources : List TGSource) (topics : Topics) : Ledger × Option Delivery :=
  match find_source sources m.chat_id m.reply_to_msg_id with
  | none => (l, none)
  | some source =>
    if is_processed l "telegram".data (toString m.id).data (toString m.chat_id).data then
      (l, none)
    else if (textOrCaption m.text m.caption).isEmpty && !source.all_posts then (l, none)
    else
      match tg_determine_target_topic (textOrCaption m.text m.caption) source topics with
      | none => (l, none)
      | some topic =>
        ((mark_processed l "telegram".data (toString m.id).data (toString m.chat_id).data
            topic.topic_id (hash (textOrCaption m.text m.caption))).1,
          some ⟨textOrCaption m.text m.caption, topic, "telegram".data,
            (toString m.id).data, (toString m.chat_id).data⟩)

/-- Python `str.isdigit()` over the ASCII identifiers in play: non-empty
and all characters decimal digits. -/
def pyIsdigit (s : List Char) : Bool := !s.isEmpty && s.all Char.isDigit

def parseNatDigits (s : List Char) : Nat :=
  s.foldl (fun a c => a * 10 + (c.toNat - 48)) 0

/-- `VKParser.check_group`'s owner-id decision:
`group_id.isdigit() or (group_id.startswith('-') and group_id[1:].isdigit())`
selects the direct path `owner_id = -int(group_id.lstrip('-'))`; any other
identifier takes the short-name lookup path (`none` here). -/
def direct_owner_id (gid : List Char) : Option Int :=
  if pyIsdigit gid || (gid.headD 'x' == '-' && pyIsdigit gid.tail) then
    some (-(parseNatDigits (gid.dropWhile (fun c => c == '-')) : Int))
  else none

/-- The upstream VK API as the poller consumes it: `groups.getById`
resolution of a short name to a (negative) owner id — `none` on API
error or unknown group — and `wall.get` recent posts per owner id. -/
structure VKAPI where
  lookup : List Char → Option Int
  posts : Int → List VKPost

/-- `check_group`'s post loop. The loop body has no per-post exception
handler, so an environment fault `fails` on one post (e.g. a storage error
raised during that item's processing) escapes and aborts the remainder of
the loop. Returns the ledger, the `(group_id, post id)` pairs whose
processing ran, the emitted deliveries, and whether an exception escaped. -/
def run_posts (hash : Hash) (fails : List Char → Int → Bool) (g : VKGroup)
    (topics : Topics) (ad : List (List Char)) :
    Ledger → List VKPost → Ledger × List (List Char × Int) × List Delivery × Bool
  | l, [] => (l, [], [], false)
  | l, p :: rest =>
    if fails g.group_id p.id then (l, [], [], true)
    else
      let r1 := process_post hash l p g topics ad
      let r2 := run_posts hash fails g topics ad r1.1 rest
      (r2.1, (g.group_id, p.id) :: r2.2.1, r1.2.toList ++ r2.2.2.1, r2.2.2.2)

/-- `VKParser.check_group`: resolve the owner id (directly for numeric or
leading-minus identifiers, otherwise via the rate-limited lookup call);
a failed resolution returns without fetching posts; otherwise fetch the
recent posts and process each. -/
def check_group (api : VKAPI) (hash : Hash) (fails : List Char → Int → Bool)
    (l : Ledger) (g : VKGroup) (topics : Topics) (ad : List (List Char)) :
    Ledger × List (List Char × Int) × List Delivery × Bool :=
  match direct_owner_id g.group_id with
  | some oid => run_posts hash fails g topics ad l (api.posts oid)
  | none =>
    match api.lookup g.group_id with
    | none => (l, [], [], false)
    | some oid => run_posts hash fails g topics ad l (api.posts oid)

/-- `VKParser.check_all_groups`' group loop: each group's check runs inside
its own try/except, so an exception escaping one group's post loop is
caught at the group boundary and the cycle continues with the next group. -/
def check_all_groups (api : VKAPI) (hash : Hash) (fails : List Char → Int → Bool)
    (topics : Topics) (ad : List (List Char)) :
    Ledger → List VKGroup → Ledger × List (List Char × Int) × List Delivery
  | l, [] => (l, [], [])
  | l, g :: rest =>
    let r1 := check_group api hash fails l g topics ad
    let r2 := check_all_groups api hash fails topics ad r1.1 rest
    (r2.1, r1.2.1 ++ r2.2.1, r1.2.2.1 ++ r2.2.2)

/-- The Telegram lane over a batch of inbound events: the whole body of
`handle_new_message` runs inside its own try/except, so a fault while
handling one event is logged and consumed, and every other event is still
handled. -/
def run_events (hash : Hash) (fails : Int → Bool) (sources : List TGSource)
    (topics : Topics) :
    Ledger → List TGMessage → Ledger × List Int × List Delivery
  | l, [] => (l, [], [])
  | l, m :: rest =>
    if fails m.id then run_events hash fails sources topics l rest
    else
      let r1 := handle_new_message hash l m sources topics
      let r2 := run_events hash fails sources topics r1.1 rest
      (r2.1, m.id :: r2.2.1, r1.2.toList ++ r2.2.2)

end Pipeline

namespace RateLimit

/-- The VK lane's limiter state (`request_count`, `last_request_reset`),
extended with the wall clock `t` the surrounding event loop observes. -/
structure RL where
  t : ℚ
  request_count : ℕ
  last_request_reset : ℚ

/-- `timedelta.seconds` for the sub-day non-negative intervals in play:
the integer part of the elapsed seconds. -/
def elapsedSeconds (d : ℚ) : ℤ := ⌊d⌋

/-- `VKParser.check_rate_limits`, called when the wall clock reads `now`:
reset the window when a full second has elapsed; when the 3-per-second
budget is spent, sleep the remainder of the window and reset. -/
def check_rate_limits (s : RL) (now : ℚ) : RL :=
  let s1 : RL :=
    if elapsedSeconds (now - s.last_request_reset) ≥ 1 then
      { t := now, request_count := 0, last_request_reset := now }
    else
      { t := now, request_count := s.request_count,
        last_request_reset := s.last_request_reset }
  if s1.request_count ≥ 3 then
    let wait : ℤ := 1 - elapsedSeconds (now - s1.last_request_reset)
    if wait > 0 then
      { t := now + wait, request_count := 0, last_request_reset := now + wait }
    else s1
  else s1

/-- One `Acquire`: the caller arrives `δ` seconds after the previous call
returned, passes `check_rate_limits`, then issues its request (which
increments `request_count`). Total: it never fails, it only delays. -/
def acquire (s : RL) (δ : ℚ) : RL :=
  let s' := check_rate_limits s (s.t + δ)
  { s' with request_count := s'.request_count + 1 }

/-- A sequence of `Acquire` calls with the given inter-arrival delays. -/
def run_acquires : RL → List ℚ → RL
  | s, [] => s
  | s, δ :: ds => run_acquires (acquire s δ) ds

/-- The limiter's initial state at clock `t0`. -/
def init (t0 : ℚ) : RL := { t := t0, request_count := 0, last_request_reset := t0 }

end RateLimit

open Pipeline in
example : determine_target_topic "Отдам даром, продам диван".data
    ⟨"g".data, "g".data, "t".data, false, "buy_sell".data, [], [], false⟩
    [("otdam".data, ⟨1, "Отдам".data⟩), ("prodam".data, ⟨3, "Продам".data⟩)]
    = some ⟨1, "Отдам".data⟩ := by decide

open Pipeline in
example : determine_target_topic "Продам диван, цена 5000 руб".data
    ⟨"g".data, "g".data, "t".data, false, "buy_sell".data, [], [], false⟩
    [("prodam".data, ⟨3, "Продам".data⟩)]
    = some ⟨3, "Продам".data⟩ := by decide

open Pipeline in
example : determine_target_topic "спасибо за внимание".data
    ⟨"g".data, "g".data, "t".data, false, "buy_sell".data, [], [], false⟩
    [("prodam".data, ⟨3, "Продам".data⟩)]
    = none := by decide

namespace Pipeline

lemma keyMatches_mk (st sid sg h : List Char) (tid : Int) (st' sid' sg' : List Char) :
    keyMatches ⟨st, sid, sg, h, tid⟩ st' sid' sg'
      = (st == st' && sid == sid' && sg == sg') := rfl

lemma is_processed_append (l : Ledger) (r : PRecord) (st sid sg : List Char) :
    is_processed (l ++ [r]) st sid sg
      = (is_processed l st sid sg || keyMatches r st sid sg) := by
  simp [is_processed, List.any_append]

lemma mark_processed_fst_of_not_seen (l : Ledger) (st sid sg : List Char)
    (tid : Int) (h : List Char) (hns : is_processed l st sid sg = false) :
    (mark_processed l st sid sg tid h).1 = l ++ [⟨st, sid, sg, h, tid⟩] := by
  unfold mark_processed
  rw [if_neg (by simp [hns])]

lemma is_processed_mark_self (l : Ledger) (st sid sg : List Char)
    (tid : Int) (h : List Char) :
    is_processed (mark_processed l st sid sg tid h).1 st sid sg = true := by
  unfold mark_processed
  by_cases hp : is_processed l st sid sg = true
  · rw [if_pos hp]; exact hp
  · rw [if_neg (by simp [hp])]
    simp [is_processed_append, keyMatches_mk]

lemma countKey_append (l l' : Ledger) (st sid sg : List Char) :
    countKey (l ++ l') st sid sg = countKey l st sid sg + countKey l' st sid sg := by
  simp [countKey, List.countP_append]

lemma countKey_eq_zero_of_not_seen (l : Ledger) (st sid sg : List Char)
    (hns : is_processed l st sid sg = false) :
    countKey l st sid sg = 0 := by
  rw [countKey, List.countP_eq_zero]
  intro r hr
  simp only [is_processed, List.any_eq_false] at hns
  exact hns r hr

/-- C5: the ledger `Record` operation is idempotent: for a dedup key already
present in `processed_posts`, `mark_processed` is a no-op that reports
success (`True`), not an error, and leaves the existing rows unchanged. -/
theorem mark_processed_idempotent (l : Ledger) (st sid sg : List Char)
    (tid : Int) (h : List Char)
    (hseen : is_processed l st sid sg = true) :
    mark_processed l st sid sg tid h = (l, true) := by
  unfold mark_processed
  rw [if_pos hseen]

/-- Witness for C5 at a concrete one-row ledger: re-recording the row's key
(even with a different topic and hash) returns the table unchanged and `True`. -/
theorem mark_processed_idempotent_witness :
    mark_processed [⟨"vk".data, "1".data, "club".data, "h".data, 7⟩]
        "vk".data "1".data "club".data 9 "h2".data
      = ([⟨"vk".data, "1".data, "club".data, "h".data, 7⟩], true) :=
  mark_processed_idempotent _ _ _ _ _ _ (by decide)

end Pipeline

namespace Pipeline

/-- Case analysis for `process_post`: either the item is dropped with the
ledger untouched, or it classifies to some topic, its key was unseen, a
delivery is emitted and the key is recorded. -/
lemma process_post_spec (hash : Hash) (l : Ledger) (p : VKPost) (g : VKGroup)
    (topics : Topics) (ad : List (List Char)) :
    process_post hash l p g topics ad = (l, none) ∨
    ∃ tp, determine_target_topic p.text g topics = some tp ∧
      is_processed l "vk".data (toString p.id).data g.group_id = false ∧
      process_post hash l p g topics ad =
        (l ++ [⟨"vk".data, (toString p.id).data, g.group_id, hash p.text, tp.topic_id⟩],
          some ⟨p.text, tp, "vk".data, (toString p.id).data, g.group_id⟩) := by
  unfold process_post
  by_cases h1 : is_processed l "vk".data (toString p.id).data g.group_id = true
  · rw [if_pos h1]; exact Or.inl rfl
  · rw [if_neg h1]
    rw [Bool.not_eq_true] at h1
    split_ifs with h2 h3 h4 h5
    · exact Or.inl rfl
    · exact Or.inl rfl
    · exact Or.inl rfl
    · exact Or.inl rfl
    · cases hdt : determine_target_topic p.text g topics with
      | none => exact Or.inl rfl
      | some tp =>
        refine Or.inr ⟨tp, rfl, h1, ?_⟩
        show ((mark_processed l "vk".data (toString p.id).data g.group_id
            tp.topic_id (hash p.text)).1,
          some (⟨p.text, tp, "vk".data, (toString p.id).data, g.group_id⟩ : Delivery)) = _
        rw [mark_processed_fst_of_not_seen _ _ _ _ _ _ h1]

/-- The emitted delivery of `process_post` depends on the ledger only
through the dedup membership of the item's own key. -/
lemma process_post_snd_congr (hash : Hash) (l l' : Ledger) (p : VKPost)
    (g : VKGroup) (topics : Topics) (ad : List (List Char))
    (hg : is_processed l "vk".data (toString p.id).data g.group_id
        = is_processed l' "vk".data (toString p.id).data g.group_id) :
    (process_post hash l p g topics ad).2 = (process_post hash l' p g topics ad).2 := by
  unfold process_post
  rw [hg]
  by_cases h1 : is_processed l' "vk".data (toString p.id).data g.group_id = true
  · rw [if_pos h1, if_pos h1]
  · rw [if_neg h1, if_neg h1]
    split_ifs <;> try rfl
    cases determine_target_topic p.text g topics <;> rfl

/-- C6: dedup keys are independent per collection. Recording a key does not
make `Seen` answer `true` for the same `(source_kind, source_item_id)` under
a different `source_collection`; consequently, after the pipeline processes
(and possibly records) a post for group `g1`, the same post under a group
with a different collection identifier is delivered exactly as it would have
been from the original ledger, and both keys can be recorded. -/
theorem dedup_key_independence (hash : Hash) (l : Ledger) (p : VKPost)
    (g1 g2 : VKGroup) (topics : Topics) (ad : List (List Char))
    (st sid sg sg' : List Char) (tid : Int) (hsh : List Char)
    (hne : (sg == sg') = false)
    (hgne : (g1.group_id == g2.group_id) = false) :
    is_processed (mark_processed l st sid sg tid hsh).1 st sid sg'
        = is_processed l st sid sg' ∧
    (process_post hash (process_post hash l p g1 topics ad).1 p g2 topics ad).2
        = (process_post hash l p g2 topics ad).2 := by
  constructor
  · unfold mark_processed
    by_cases hp : is_processed l st sid sg = true
    · rw [if_pos hp]
    · rw [if_neg hp]
      simp [is_processed_append, keyMatches_mk, hne]
  · rcases process_post_spec hash l p g1 topics ad with h | ⟨tp, _, _, h⟩
    · rw [h]
    · rw [h]
      apply process_post_snd_congr
      simp [is_processed_append, keyMatches_mk, hgne]

/-- Witness for C6: two one-post VK groups `club1` and `club2` sharing the
post id `1`; recording the key under `club1` leaves the key under `club2`
unseen, and processing the post for `club2` after the `club1` pass still
emits the same delivery. -/
theorem dedup_key_independence_witness :
    is_processed (mark_processed [] "vk".data "1".data "club1".data 7 "h".data).1
        "vk".data "1".data "club2".data = false ∧
    (process_post id
        (process_post id [] ⟨1, "отдам".data, none, none⟩
          ⟨"club1".data, "a".data, "t".data, false, "buy_sell".data, [], [], false⟩
          [("otdam".data, ⟨1, "Отдам".data⟩)] []).1
        ⟨1, "отдам".data, none, none⟩
        ⟨"club2".data, "b".data, "t".data, false, "buy_sell".data, [], [], false⟩
        [("otdam".data, ⟨1, "Отдам".data⟩)] []).2
      = (process_post id [] ⟨1, "отдам".data, none, none⟩
          ⟨"club2".data, "b".data, "t".data, false, "buy_sell".data, [], [], false⟩
          [("otdam".data, ⟨1, "Отдам".data⟩)] []).2 := by
  have h := dedup_key_independence id [] ⟨1, "отдам".data, none, none⟩
    ⟨"club1".data, "a".data, "t".data, false, "buy_sell".data, [], [], false⟩
    ⟨"club2".data, "b".data, "t".data, false, "buy_sell".data, [], [], false⟩
    [("otdam".data, ⟨1, "Отдам".data⟩)] []
    "vk".data "1".data "club1".data "club2".data 7 "h".data
    (by decide) (by decide)
  refine ⟨?_, h.2⟩
  rw [h.1]
  decide

end Pipeline

namespace Pipeline

lemma process_post_of_seen (hash : Hash) (l : Ledger) (p : VKPost) (g : VKGroup)
    (topics : Topics) (ad : List (List Char))
    (hseen : is_processed l "vk".data (toString p.id).data g.group_id = true) :
    process_post hash l p g topics ad = (l, none) := by
  unfold process_post
  rw [if_pos hseen]

/-- C1: idempotence of the coordinator pipeline. Starting from a ledger in
which the item's dedup key `(vk, post id, group identifier)` is not yet
recorded, running `process_post` twice with the ledger carried over yields
no second delivery and no second record — the second run returns the first
run's ledger unchanged with no delivery, and if the first run delivered, the
final ledger holds exactly one `ProcessedRecord` row for the key. -/
theorem coordinator_idempotent (hash : Hash) (l : Ledger) (p : VKPost) (g : VKGroup)
    (topics : Topics) (ad : List (List Char))
    (hfresh : is_processed l "vk".data (toString p.id).data g.group_id = false) :
    process_post hash (process_post hash l p g topics ad).1 p g topics ad
      = ((process_post hash l p g topics ad).1, none) ∧
    ((process_post hash l p g topics ad).2.isSome = true →
      countKey (process_post hash l p g topics ad).1
        "vk".data (toString p.id).data g.group_id = 1) := by
  rcases process_post_spec hash l p g topics ad with h | ⟨tp, hdt, hns, h⟩
  · have h1 : (process_post hash l p g topics ad).1 = l := by rw [h]
    have h2 : (process_post hash l p g topics ad).2 = none := by rw [h]
    constructor
    · rw [h1]; exact h
    · intro hs; rw [h2] at hs; cases hs
  · have h1 : (process_post hash l p g topics ad).1
        = l ++ [⟨"vk".data, (toString p.id).data, g.group_id, hash p.text, tp.topic_id⟩] := by
      rw [h]
    constructor
    · rw [h1]
      apply process_post_of_seen
      rw [is_processed_append]
      simp [keyMatches_mk]
    · intro _
      rw [h1, countKey_append, countKey_eq_zero_of_not_seen l _ _ _ hfresh]
      simp [countKey, keyMatches_mk, List.countP_cons]

/-- Witness for C1: a concrete giveaway post processed twice from the empty
ledger — the second pass is a no-op and the key ends up with one row. -/
theorem coordinator_idempotent_witness :
    process_post id (process_post id [] ⟨1, "отдам".data, none, none⟩
        ⟨"club1".data, "a".data, "t".data, false, "buy_sell".data, [], [], false⟩
        [("otdam".data, ⟨1, "Отдам".data⟩)] []).1
      ⟨1, "отдам".data, none, none⟩
      ⟨"club1".data, "a".data, "t".data, false, "buy_sell".data, [], [], false⟩
      [("otdam".data, ⟨1, "Отдам".data⟩)] []
      = ((process_post id [] ⟨1, "отдам".data, none, none⟩
            ⟨"club1".data, "a".data, "t".data, false, "buy_sell".data, [], [], false⟩
            [("otdam".data, ⟨1, "Отдам".data⟩)] []).1, none) ∧
    ((process_post id [] ⟨1, "отдам".data, none, none⟩
        ⟨"club1".data, "a".data, "t".data, false, "buy_sell".data, [], [], false⟩
        [("otdam".data, ⟨1, "Отдам".data⟩)] []).2.isSome = true →
      countKey (process_post id [] ⟨1, "отдам".data, none, none⟩
          ⟨"club1".data, "a".data, "t".data, false, "buy_sell".data, [], [], false⟩
          [("otdam".data, ⟨1, "Отдам".data⟩)] []).1
        "vk".data "1".data "club1".data = 1) :=
  coordinator_idempotent id [] ⟨1, "отдам".data, none, none⟩
    ⟨"club1".data, "a".data, "t".data, false, "buy_sell".data, [], [], false⟩
    [("otdam".data, ⟨1, "Отдам".data⟩)] [] (by decide)

end Pipeline

namespace Pipeline

/-- C3: under the `buy_sell` strategy with `all_posts` unset, both
classifiers test the three keyword families in the fixed priority order
giveaway > buy > sell: a giveaway word forces topic `otdam` regardless of
the other families, a buy word (with no giveaway word) forces `kuplyu`, a
sell word alone forces `prodam`, and no family at all rejects. -/
theorem buy_sell_priority (text : List Char) (g : VKGroup) (s : TGSource)
    (topics : Topics)
    (hg1 : g.all_posts = false) (hg2 : g.classifier_type = "buy_sell".data)
    (hs1 : s.all_posts = false) (hs2 : s.classifier_type = "buy_sell".data) :
    (giveaway_words.any (fun w => substr w (lowerStr text)) = true →
      determine_target_topic text g topics = getTopic topics "otdam".data ∧
      tg_determine_target_topic text s topics = getTopic topics "otdam".data) ∧
    (giveaway_words.any (fun w => substr w (lowerStr text)) = false →
      buy_words.any (fun w => substr w (lowerStr text)) = true →
      determine_target_topic text g topics = getTopic topics "kuplyu".data ∧
      tg_determine_target_topic text s topics = getTopic topics "kuplyu".data) ∧
    (giveaway_words.any (fun w => substr w (lowerStr text)) = false →
      buy_words.any (fun w => substr w (lowerStr text)) = false →
      sell_words.any (fun w => substr w (lowerStr text)) = true →
      determine_target_topic text g topics = getTopic topics "prodam".data ∧
      tg_determine_target_topic text s topics = getTopic topics "prodam".data) ∧
    (giveaway_words.any (fun w => substr w (lowerStr text)) = false →
      buy_words.any (fun w => substr w (lowerStr text)) = false →
      sell_words.any (fun w => substr w (lowerStr text)) = false →
      determine_target_topic text g topics = none ∧
      tg_determine_target_topic text s topics = none) := by
  refine ⟨fun h1 => ?_, fun h1 h2 => ?_, fun h1 h2 h3 => ?_, fun h1 h2 h3 => ?_⟩
  · exact ⟨by simp [determine_target_topic, hg1, hg2, h1],
      by simp [tg_determine_target_topic, hs1, hs2, h1]⟩
  · exact ⟨by simp [determine_target_topic, hg1, hg2, h1, h2],
      by simp [tg_determine_target_topic, hs1, hs2, h1, h2]⟩
  · exact ⟨by simp [determine_target_topic, hg1, hg2, h1, h2, h3],
      by simp [tg_determine_target_topic, hs1, hs2, h1, h2, h3]⟩
  · exact ⟨by simp [determine_target_topic, hg1, hg2, h1, h2, h3],
      by simp [tg_determine_target_topic, hs1, hs2, h1, h2, h3]⟩

/-- Witness for C3 at the text "Отдам и продам диван": a giveaway word and
a sell word together classify to `otdam`, never `prodam`, for both parsers. -/
theorem buy_sell_priority_witness :
    determine_target_topic "Отдам и продам диван".data
        ⟨"club1".data, "a".data, "t".data, false, "buy_sell".data, [], [], false⟩
        [("otdam".data, ⟨1, "o".data⟩), ("prodam".data, ⟨3, "p".data⟩)]
      = getTopic [("otdam".data, ⟨1, "o".data⟩), ("prodam".data, ⟨3, "p".data⟩)]
          "otdam".data ∧
    tg_determine_target_topic "Отдам и продам диван".data
        ⟨10, none, "src".data, "t".data, false, "buy_sell".data, [], true⟩
        [("otdam".data, ⟨1, "o".data⟩), ("prodam".data, ⟨3, "p".data⟩)]
      = getTopic [("otdam".data, ⟨1, "o".data⟩), ("prodam".data, ⟨3, "p".data⟩)]
          "otdam".data :=
  (buy_sell_priority "Отдам и продам диван".data
    ⟨"club1".data, "a".data, "t".data, false, "buy_sell".data, [], [], false⟩
    ⟨10, none, "src".data, "t".data, false, "buy_sell".data, [], true⟩
    [("otdam".data, ⟨1, "o".data⟩), ("prodam".data, ⟨3, "p".data⟩)]
    rfl rfl rfl rfl).1 (by decide)

/-- C4: with `require_date_or_price` set, a VK post whose text has neither a
date-like token nor a price-like token is dropped with nothing delivered and
nothing recorded; and when a price marker is present the gate has no effect —
the outcome is the one of the same group with the flag cleared, so the item
proceeds to classification. -/
theorem date_price_gate (hash : Hash) (l : Ledger) (p : VKPost) (g : VKGroup)
    (topics : Topics) (ad : List (List Char))
    (hreq : g.require_date_or_price = true) :
    (contains_date p.text = false → contains_price p.text = false →
      process_post hash l p g topics ad = (l, none)) ∧
    (contains_price p.text = true →
      process_post hash l p g topics ad
        = process_post hash l p
            ⟨g.group_id, g.name, g.target_topic, g.all_posts, g.classifier_type,
              g.keywords, g.exclude_keywords, false⟩ topics ad) := by
  constructor
  · intro hd hp
    unfold process_post
    split_ifs with h1 h2 h3 h4 h5 <;> try rfl
    exact absurd (by simp [hreq, hd, hp]) h5
  · intro hp
    unfold process_post
    have e1 : (g.require_date_or_price
        && !(contains_date p.text || contains_price p.text)) = false := by
      simp [hp]
    have e2 : ((⟨g.group_id, g.name, g.target_topic, g.all_posts, g.classifier_type,
        g.keywords, g.exclude_keywords, false⟩ : VKGroup).require_date_or_price
        && !(contains_date p.text || contains_price p.text)) = false := by
      simp
    rw [e1, e2]
    rfl

/-- Witness for C4: a group requiring a date-or-price marker; a post whose
text has only the price marker "цена" is classified and delivered (same
outcome as without the gate), exercising the claim's accepted side. -/
theorem date_price_gate_witness :
    (contains_date "Продам диван, цена 5000 руб".data = false →
      contains_price "Продам диван, цена 5000 руб".data = false →
      process_post id [] ⟨1, "Продам диван, цена 5000 руб".data, none, none⟩
          ⟨"club1".data, "a".data, "t".data, false, "buy_sell".data, [], [], true⟩
          [("prodam".data, ⟨3, "p".data⟩)] []
        = ([], none)) ∧
    (contains_price "Продам диван, цена 5000 руб".data = true →
      process_post id [] ⟨1, "Продам диван, цена 5000 руб".data, none, none⟩
          ⟨"club1".data, "a".data, "t".data, false, "buy_sell".data, [], [], true⟩
          [("prodam".data, ⟨3, "p".data⟩)] []
        = process_post id [] ⟨1, "Продам диван, цена 5000 руб".data, none, none⟩
            ⟨"club1".data, "a".data, "t".data, false, "buy_sell".data, [], [], false⟩
            [("prodam".data, ⟨3, "p".data⟩)] []) :=
  date_price_gate id [] ⟨1, "Продам диван, цена 5000 руб".data, none, none⟩
    ⟨"club1".data, "a".data, "t".data, false, "buy_sell".data, [], [], true⟩
    [("prodam".data, ⟨3, "p".data⟩)] [] rfl

end Pipeline

namespace Pipeline

/-- Unfolding of the Telegram handler once the event has matched a source. -/
lemma handle_new_message_of_find (hash : Hash) (l : Ledger) (m : TGMessage)
    (sources : List TGSource) (topics : Topics) (s : TGSource)
    (hfs : find_source sources m.chat_id m.reply_to_msg_id = some s) :
    handle_new_message hash l m sources topics =
      if is_processed l "telegram".data (toString m.id).data (toString m.chat_id).data then
        (l, none)
      else if (textOrCaption m.text m.caption).isEmpty && !s.all_posts then (l, none)
      else
        match tg_determine_target_topic (textOrCaption m.text m.caption) s topics with
        | none => (l, none)
        | some topic =>
          ((mark_processed l "telegram".data (toString m.id).data (toString m.chat_id).data
              topic.topic_id (hash (textOrCaption m.text m.caption))).1,
            some ⟨textOrCaption m.text m.caption, topic, "telegram".data,
              (toString m.id).data, (toString m.chat_id).data⟩) := by
  unfold handle_new_message
  rw [hfs]

/-- C10: the implicit empty-text gate. A VK post with empty text from a
group whose `all_posts` flag is false, and a Telegram message with neither
text nor caption matching a source whose `all_posts` flag is false, are both
dropped with the ledger untouched — in particular before any ad-keyword
filtering, date/price check or classification (the outcome `(l, none)` holds
for every keyword list, flag and catalog), so the unrecorded key is
re-examined on every subsequent fetch. -/
theorem empty_text_gate (hash : Hash) (l : Ledger) (p : VKPost) (g : VKGroup)
    (topics : Topics) (ad : List (List Char)) (m : TGMessage)
    (sources : List TGSource) (s : TGSource) :
    (p.text = [] → g.all_posts = false → process_post hash l p g topics ad = (l, none)) ∧
    (find_source sources m.chat_id m.reply_to_msg_id = some s → s.all_posts = false →
      textOrCaption m.text m.caption = [] →
      handle_new_message hash l m sources topics = (l, none)) := by
  constructor
  · intro ht hap
    unfold process_post
    split_ifs with h1 h2 h3 h4 h5 <;> try rfl
    exact absurd (by simp [ht, hap]) h2
  · intro hfs hap ht
    rw [handle_new_message_of_find hash l m sources topics s hfs]
    split_ifs with h1 h2 <;> try rfl
    exact absurd (by simp [ht, hap]) h2

/-- Witness for C10: a VK post with empty text and an image-only Telegram
message, each under a source with `all_posts` unset, are dropped and the
empty ledger stays empty. -/
theorem empty_text_gate_witness :
    process_post id [] ⟨1, [], none, none⟩
        ⟨"club1".data, "a".data, "t".data, false, "buy_sell".data, [], [], false⟩
        [("otdam".data, ⟨1, "o".data⟩)] ["реклама".data]
      = ([], none) ∧
    handle_new_message id [] ⟨10, 5, none, none, none⟩
        [⟨10, none, "src".data, "t".data, false, "buy_sell".data, [], true⟩]
        [("otdam".data, ⟨1, "o".data⟩)]
      = ([], none) :=
  ⟨(empty_text_gate id [] ⟨1, [], none, none⟩
      ⟨"club1".data, "a".data, "t".data, false, "buy_sell".data, [], [], false⟩
      [("otdam".data, ⟨1, "o".data⟩)] ["реклама".data] ⟨10, 5, none, none, none⟩
      [⟨10, none, "src".data, "t".data, false, "buy_sell".data, [], true⟩]
      ⟨10, none, "src".data, "t".data, false, "buy_sell".data, [], true⟩).1 rfl rfl,
   (empty_text_gate id [] ⟨1, [], none, none⟩
      ⟨"club1".data, "a".data, "t".data, false, "buy_sell".data, [], [], false⟩
      [("otdam".data, ⟨1, "o".data⟩)] ["реклама".data] ⟨10, 5, none, none, none⟩
      [⟨10, none, "src".data, "t".data, false, "buy_sell".data, [], true⟩]
      ⟨10, none, "src".data, "t".data, false, "buy_sell".data, [], true⟩).2
    (by decide) rfl rfl⟩

end Pipeline

namespace Pipeline

/-- C2 (amended to VK): a VK post whose text case-insensitively contains a
global ad-keyword, or any of its group's exclude-keywords, is rejected —
not delivered and not recorded. In particular, under the `keywords`
strategy a text containing both a configured keyword and an
exclude-keyword is rejected. The Telegram handler performs no such
filtering (see the counterexample). -/
theorem ad_and_exclude_keywords_reject (hash : Hash) (l : Ledger) (p : VKPost)
    (g : VKGroup) (topics : Topics) (ad : List (List Char))
    (hk : contains_ad_keywords p.text ad = true ∨
      contains_ad_keywords p.text g.exclude_keywords = true) :
    process_post hash l p g topics ad = (l, none) := by
  unfold process_post
  split_ifs with h1 h2 h3 h4 h5 <;> try rfl
  rcases hk with hk | hk
  · exact absurd hk h3
  · refine absurd ?_ h4
    have hne : g.exclude_keywords.isEmpty = false := by
      cases hx : g.exclude_keywords with
      | nil => rw [hx] at hk; exact absurd hk (by simp [contains_ad_keywords])
      | cons a as => simp
    simp [hne, hk]

/-- Witness for C2's amended VK statement, at the "exclude beats include"
instance: a `keywords`-strategy group whose keyword "диван" and
exclude-keyword "бартер" both occur in the text; the post is rejected. -/
theorem ad_and_exclude_keywords_reject_witness :
    process_post id [] ⟨1, "Продам диван, возможен бартер".data, none, none⟩
        ⟨"club1".data, "a".data, "t".data, false, "keywords".data,
          ["диван".data], ["бартер".data], false⟩
        [("t".data, ⟨7, "p".data⟩)] ["реклама".data]
      = ([], none) :=
  ad_and_exclude_keywords_reject id [] ⟨1, "Продам диван, возможен бартер".data, none, none⟩
    ⟨"club1".data, "a".data, "t".data, false, "keywords".data,
      ["диван".data], ["бартер".data], false⟩
    [("t".data, ⟨7, "p".data⟩)] ["реклама".data] (Or.inr (by decide))

/-- Counterexample to C2 as stated: the claim quantifies over both source
kinds, but the Telegram handler applies no ad-keyword filter. A Telegram
message whose text contains the global ad-keyword "реклама" (and a source
keyword under the `keywords` strategy) is nevertheless delivered and its
key recorded. -/
theorem ad_keyword_filter_counterexample :
    contains_ad_keywords "Реклама: продаётся диван".data ["реклама".data] = true ∧
    (handle_new_message id [] ⟨10, 5, none, some "Реклама: продаётся диван".data, none⟩
        [⟨10, none, "src".data, "t".data, false, "keywords".data, ["диван".data], true⟩]
        [("t".data, ⟨7, "p".data⟩)]).2.isSome = true ∧
    is_processed (handle_new_message id []
        ⟨10, 5, none, some "Реклама: продаётся диван".data, none⟩
        [⟨10, none, "src".data, "t".data, false, "keywords".data, ["диван".data], true⟩]
        [("t".data, ⟨7, "p".data⟩)]).1
      "telegram".data "5".data "10".data = true := by
  decide

end Pipeline

namespace Pipeline

/-- Which posts of a group get processed depends only on the fault oracle
and the fetched list, never on the ledger contents. -/
lemma run_posts_processed_ledger_indep (hash : Hash) (fails : List Char → Int → Bool)
    (g : VKGroup) (topics : Topics) (ad : List (List Char)) :
    ∀ (ps : List VKPost) (l l' : Ledger),
      (run_posts hash fails g topics ad l ps).2.1
        = (run_posts hash fails g topics ad l' ps).2.1 := by
  intro ps
  induction ps with
  | nil => intro l l'; rfl
  | cons p rest ih =>
    intro l l'
    unfold run_posts
    by_cases hf : fails g.group_id p.id = true
    · rw [if_pos hf, if_pos hf]
    · rw [if_neg hf, if_neg hf]
      dsimp only
      exact congrArg _ (ih _ _)

lemma check_group_processed_ledger_indep (api : VKAPI) (hash : Hash)
    (fails : List Char → Int → Bool) (g : VKGroup) (topics : Topics)
    (ad : List (List Char)) (l l' : Ledger) :
    (check_group api hash fails l g topics ad).2.1
      = (check_group api hash fails l' g topics ad).2.1 := by
  unfold check_group
  cases direct_owner_id g.group_id with
  | some oid => exact run_posts_processed_ledger_indep hash fails g topics ad _ l l'
  | none =>
    cases api.lookup g.group_id with
    | none => rfl
    | some oid => exact run_posts_processed_ledger_indep hash fails g topics ad _ l l'

lemma check_all_groups_processed (api : VKAPI) (hash : Hash)
    (fails : List Char → Int → Bool) (topics : Topics) (ad : List (List Char)) :
    ∀ (gs : List VKGroup) (l : Ledger),
      (check_all_groups api hash fails topics ad l gs).2.1
        = gs.flatMap (fun g => (check_group api hash fails l g topics ad).2.1) := by
  intro gs
  induction gs with
  | nil => intro l; rfl
  | cons g rest ih =>
    intro l
    unfold check_all_groups
    dsimp only
    rw [ih]
    have he : (fun g' => (check_group api hash fails
          (check_group api hash fails l g topics ad).1 g' topics ad).2.1)
        = (fun g' => (check_group api hash fails l g' topics ad).2.1) :=
      funext (fun g' => check_group_processed_ledger_indep api hash fails g' topics ad _ l)
    rw [he, List.flatMap_cons]

lemma run_events_processed (hash : Hash) (efails : Int → Bool)
    (sources : List TGSource) (topics : Topics) :
    ∀ (ms : List TGMessage) (l : Ledger),
      (run_events hash efails sources topics l ms).2.1
        = (ms.filter (fun m => !efails m.id)).map (fun m => m.id) := by
  intro ms
  induction ms with
  | nil => intro l; rfl
  | cons m rest ih =>
    intro l
    unfold run_events
    by_cases hf : efails m.id = true
    · rw [if_pos hf, ih]
      simp [List.filter_cons, hf]
    · rw [if_neg hf]
      dsimp only
      rw [ih]
      simp [List.filter_cons, hf]

/-- C7 (amended): failure isolation is per VK group and per Telegram event,
not per item. In the VK cycle, each group's processed items are exactly
what that group contributes in isolation — a fault inside one group never
affects which items of the other groups run; in the Telegram lane every
event whose own handling does not fault is handled. (Within a single VK
group, a faulting post aborts the remaining posts of that group for the
cycle — see the counterexample.) -/
theorem failure_isolation_granularity (api : VKAPI) (hash : Hash)
    (fails : List Char → Int → Bool) (efails : Int → Bool) (topics : Topics)
    (ad : List (List Char)) (gs : List VKGroup) (ms : List TGMessage)
    (sources : List TGSource) (l l' : Ledger) :
    (check_all_groups api hash fails topics ad l gs).2.1
      = gs.flatMap (fun g => (check_group api hash fails l g topics ad).2.1) ∧
    (run_events hash efails sources topics l' ms).2.1
      = (ms.filter (fun m => !efails m.id)).map (fun m => m.id) :=
  ⟨check_all_groups_processed api hash fails topics ad gs l,
   run_events_processed hash efails sources topics ms l'⟩

/-- Counterexample to C7 as stated: one VK group whose fetch returns posts
`1` and `2`; a fault while processing post `1` (first conjunct, fault
oracle hits `(group 1, post 1)`) prevents the processing of post `2` of
the same batch — with no fault (second conjunct) both posts process. -/
theorem per_item_isolation_counterexample :
    (check_all_groups
        ⟨fun _ => none, fun _ => [⟨1, "x".data, none, none⟩, ⟨2, "y".data, none, none⟩]⟩
        id (fun gid pid => gid == "1".data && pid == 1) [] [] []
        [⟨"1".data, "a".data, "t".data, true, "none".data, [], [], false⟩]).2.1
      = [] ∧
    (check_all_groups
        ⟨fun _ => none, fun _ => [⟨1, "x".data, none, none⟩, ⟨2, "y".data, none, none⟩]⟩
        id (fun _ _ => false) [] [] []
        [⟨"1".data, "a".data, "t".data, true, "none".data, [], [], false⟩]).2.1
      = [("1".data, 1), ("1".data, 2)] := by
  decide

end Pipeline

namespace Pipeline

/-- The guard of claim C8 following the spec's words: "numeric, or numeric
with a leading sign" — a leading `+` or `-` followed by digits. Stated for
comparison with the code's `direct_owner_id` guard, which accepts only a
leading minus. -/
def spec_numeric_with_sign (gid : List Char) : Bool :=
  pyIsdigit gid ||
    ((gid.headD 'x' == '+' || gid.headD 'x' == '-') && pyIsdigit gid.tail)

/-- Counterexample to C8 as stated: the identifier `+123` is numeric with a
leading sign, yet the code's direct path rejects it and the poller's outcome
for that group depends on the short-name lookup call (two APIs equal except
in lookup give different processed items), so a lookup is performed. -/
theorem numeric_sign_counterexample :
    spec_numeric_with_sign "+123".data = true ∧
    direct_owner_id "+123".data = none ∧
    (check_group
        ⟨fun _ => some (-123),
          fun oid => if oid == -123 then [⟨1, "x".data, none, none⟩] else []⟩
        id (fun _ _ => false) []
        ⟨"+123".data, "a".data, "t".data, true, "none".data, [], [], false⟩
        [("t".data, ⟨7, "p".data⟩)] []).2.1
      ≠ (check_group
        ⟨fun _ => none,
          fun oid => if oid == -123 then [⟨1, "x".data, none, none⟩] else []⟩
        id (fun _ _ => false) []
        ⟨"+123".data, "a".data, "t".data, true, "none".data, [], [], false⟩
        [("t".data, ⟨7, "p".data⟩)] []).2.1 := by
  decide

/-- C8 (amended): for an identifier that is numeric or numeric with a
leading minus, the poller takes the direct path — the cycle's outcome does
not depend on the lookup oracle at all, and the posts are fetched at owner
id `-int(group_id.lstrip('-'))`. A non-direct identifier whose lookup
fails makes `check_group` skip the group without processing anything, and
the cycle over the remaining groups proceeds unchanged. -/
theorem resolve_owner_id_direct (api api' : VKAPI) (hash : Hash)
    (fails : List Char → Int → Bool) (l : Ledger) (g : VKGroup)
    (topics : Topics) (ad : List (List Char)) (gs : List VKGroup) :
    ((pyIsdigit g.group_id
        || (g.group_id.headD 'x' == '-' && pyIsdigit g.group_id.tail)) = true →
      api.posts = api'.posts →
      check_group api hash fails l g topics ad
          = check_group api' hash fails l g topics ad ∧
      check_group api hash fails l g topics ad
          = run_posts hash fails g topics ad l
              (api.posts (-(parseNatDigits
                (g.group_id.dropWhile (fun c => c == '-')) : Int)))) ∧
    (direct_owner_id g.group_id = none → api.lookup g.group_id = none →
      check_group api hash fails l g topics ad = (l, [], [], false) ∧
      check_all_groups api hash fails topics ad l (g :: gs)
          = check_all_groups api hash fails topics ad l gs) := by
  constructor
  · intro hdir hposts
    have hd : direct_owner_id g.group_id
        = some (-(parseNatDigits (g.group_id.dropWhile (fun c => c == '-')) : Int)) := by
      unfold direct_owner_id
      rw [if_pos hdir]
    constructor
    · unfold check_group
      rw [hd, hposts]
    · unfold check_group
      rw [hd]
  · intro hdnone hlnone
    have hcg : check_group api hash fails l g topics ad = (l, [], [], false) := by
      unfold check_group
      rw [hdnone, hlnone]
    refine ⟨hcg, ?_⟩
    show (let r1 := check_group api hash fails l g topics ad;
      let r2 := check_all_groups api hash fails topics ad r1.1 gs;
      (r2.1, r1.2.1 ++ r2.2.1, r1.2.2.1 ++ r2.2.2)) = _
    rw [hcg]
    simp

/-- Witness for C8's amended statement: the numeric identifier `-123` takes
the direct path (two APIs differing only in lookup agree), and a short-name
group whose lookup fails is skipped with nothing processed. -/
theorem resolve_owner_id_direct_witness :
    check_group
        ⟨fun _ => some 77, fun oid => if oid == -123 then [⟨1, "x".data, none, none⟩] else []⟩
        id (fun _ _ => false) []
        ⟨"-123".data, "a".data, "t".data, true, "none".data, [], [], false⟩
        [("t".data, ⟨7, "p".data⟩)] []
      = check_group
        ⟨fun _ => none, fun oid => if oid == -123 then [⟨1, "x".data, none, none⟩] else []⟩
        id (fun _ _ => false) []
        ⟨"-123".data, "a".data, "t".data, true, "none".data, [], [], false⟩
        [("t".data, ⟨7, "p".data⟩)] [] ∧
    check_group ⟨fun _ => none, fun _ => [⟨1, "x".data, none, none⟩]⟩
        id (fun _ _ => false) []
        ⟨"baraholka".data, "a".data, "t".data, true, "none".data, [], [], false⟩
        [("t".data, ⟨7, "p".data⟩)] []
      = ([], [], [], false) :=
  ⟨((resolve_owner_id_direct
      ⟨fun _ => some 77, fun oid => if oid == -123 then [⟨1, "x".data, none, none⟩] else []⟩
      ⟨fun _ => none, fun oid => if oid == -123 then [⟨1, "x".data, none, none⟩] else []⟩
      id (fun _ _ => false) []
      ⟨"-123".data, "a".data, "t".data, true, "none".data, [], [], false⟩
      [("t".data, ⟨7, "p".data⟩)] [] []).1 (by decide) rfl).1,
   ((resolve_owner_id_direct
      ⟨fun _ => none, fun _ => [⟨1, "x".data, none, none⟩]⟩
      ⟨fun _ => none, fun _ => [⟨1, "x".data, none, none⟩]⟩
      id (fun _ _ => false) []
      ⟨"baraholka".data, "a".data, "t".data, true, "none".data, [], [], false⟩
      [("t".data, ⟨7, "p".data⟩)] [] []).2 (by decide) rfl).1⟩

end Pipeline

namespace RateLimit

/-- Invariant tying the number `k` of completed `Acquire` calls to the
number `r` of window resets: at most three acquires fit per reset, every
reset advances `last_request_reset` by at least one second, and the clock
sits inside the current one-second window. -/
def Inv (t0 : ℚ) (k r : ℕ) (s : RL) : Prop :=
  k ≤ 3 * r + s.request_count ∧ s.request_count ≤ 3 ∧
  t0 + (r : ℚ) ≤ s.last_request_reset ∧ s.last_request_reset ≤ s.t ∧
  s.t < s.last_request_reset + 1

lemma inv_init (t0 : ℚ) : Inv t0 0 0 (init t0) := by
  unfold Inv init
  norm_num

lemma inv_acquire (t0 : ℚ) (k r : ℕ) (s : RL) (δ : ℚ) (hδ : 0 ≤ δ)
    (h : Inv t0 k r s) :
    Inv t0 (k + 1) r (acquire s δ) ∨ Inv t0 (k + 1) (r + 1) (acquire s δ) := by
  obtain ⟨h1, h2, h3, h4, h5⟩ := h
  have he0 : (0 : ℚ) ≤ s.t + δ - s.last_request_reset := by linarith
  unfold acquire check_rate_limits elapsedSeconds
  dsimp only
  by_cases hA : ⌊s.t + δ - s.last_request_reset⌋ ≥ (1 : ℤ)
  · rw [if_pos hA]
    have he1 : (1 : ℚ) ≤ s.t + δ - s.last_request_reset := by
      exact_mod_cast Int.le_floor.mp hA
    rw [if_neg (by dsimp only; omega)]
    refine Or.inr ⟨by dsimp only; omega, by dsimp only; omega, ?_, ?_, ?_⟩
    · dsimp only; push_cast; linarith
    · dsimp only; exact le_refl _
    · dsimp only; linarith
  · rw [if_neg hA]
    have hlt : ⌊s.t + δ - s.last_request_reset⌋ < 1 := not_le.mp hA
    have hfl0 : ⌊s.t + δ - s.last_request_reset⌋ = 0 :=
      le_antisymm (by omega) (Int.floor_nonneg.mpr he0)
    have helt : s.t + δ - s.last_request_reset < 1 := by
      have := Int.floor_lt.mp hlt
      exact_mod_cast this
    dsimp only
    by_cases hB : s.request_count ≥ 3
    · rw [if_pos hB, if_pos (show (1 : ℤ) - ⌊s.t + δ - s.last_request_reset⌋ > 0 by omega)]
      refine Or.inr ⟨by dsimp only; omega, by dsimp only; omega, ?_, ?_, ?_⟩
      · dsimp only; rw [hfl0]; push_cast; linarith
      · dsimp only; exact le_refl _
      · dsimp only; linarith
    · rw [if_neg hB]
      refine Or.inl ⟨by dsimp only; omega, by dsimp only; omega, ?_, ?_, ?_⟩
      · dsimp only; exact h3
      · dsimp only; linarith
      · dsimp only; linarith

lemma inv_run (t0 : ℚ) : ∀ (ds : List ℚ) (k r : ℕ) (s : RL),
    (∀ δ ∈ ds, 0 ≤ δ) → Inv t0 k r s →
    ∃ r', r ≤ r' ∧ Inv t0 (k + ds.length) r' (run_acquires s ds) := by
  intro ds
  induction ds with
  | nil =>
    intro k r s _ h
    exact ⟨r, le_refl r, by simpa using h⟩
  | cons δ rest ih =>
    intro k r s hpos h
    have hδ : 0 ≤ δ := hpos δ (List.mem_cons_self δ rest)
    have hrest : ∀ x ∈ rest, 0 ≤ x := fun x hx => hpos x (List.mem_cons_of_mem δ hx)
    have hlen : k + (δ :: rest).length = (k + 1) + rest.length := by
      rw [List.length_cons]; omega
    rcases inv_acquire t0 k r s δ hδ h with h' | h'
    · rcases ih (k + 1) r (acquire s δ) hrest h' with ⟨r', hr, hinv⟩
      exact ⟨r', hr, by rw [hlen]; exact hinv⟩
    · rcases ih (k + 1) (r + 1) (acquire s δ) hrest h' with ⟨r', hr, hinv⟩
      exact ⟨r', le_trans (Nat.le_succ r) hr, by rw [hlen]; exact hinv⟩

/-- C9: rate-limiter lower bound at the code's budget of 3 requests per
second. For any sequence of `Acquire` calls with non-negative inter-arrival
delays, the final clock never runs backwards, and after `M` calls at least
`⌈M/3⌉ - 1` seconds of wall-clock time have elapsed; `Acquire` is a total
function — it never fails, it only advances the clock. -/
theorem rate_limiter_lower_bound (t0 : ℚ) (ds : List ℚ)
    (hpos : ∀ δ ∈ ds, 0 ≤ δ) :
    t0 ≤ (run_acquires (init t0) ds).t ∧
    ((⌈(ds.length : ℚ) / 3⌉ - 1 : ℤ) : ℚ) ≤ (run_acquires (init t0) ds).t - t0 := by
  rcases inv_run t0 ds 0 0 (init t0) hpos (inv_init t0) with ⟨r, _, hinv⟩
  obtain ⟨h1, h2, h3, h4, _⟩ := hinv
  have hM : ds.length ≤ 3 * r + 3 := by omega
  have hMq : ((ds.length : ℚ)) ≤ 3 * (r : ℚ) + 3 := by exact_mod_cast hM
  have hceil : ⌈(ds.length : ℚ) / 3⌉ ≤ (r : ℤ) + 1 := by
    rw [Int.ceil_le]
    rw [div_le_iff₀ (by norm_num : (0 : ℚ) < 3)]
    push_cast
    linarith
  have hceilq : ((⌈(ds.length : ℚ) / 3⌉ : ℤ) : ℚ) ≤ (r : ℚ) + 1 := by exact_mod_cast hceil
  have hr0 : (0 : ℚ) ≤ (r : ℚ) := by positivity
  constructor
  · linarith
  · push_cast
    linarith

/-- Witness for C9: seven back-to-back acquires (all delays zero) from clock
0 end no earlier than `⌈7/3⌉ - 1 = 2` seconds in. -/
theorem rate_limiter_lower_bound_witness :
    (0 : ℚ) ≤ (run_acquires (init 0) [0, 0, 0, 0, 0, 0, 0]).t ∧
    ((⌈((7 : ℕ) : ℚ) / 3⌉ - 1 : ℤ) : ℚ)
      ≤ (run_acquires (init 0) [0, 0, 0, 0, 0, 0, 0]).t - 0 := by
  have h := rate_limiter_lower_bound 0 [0, 0, 0, 0, 0, 0, 0]
    (by intro δ hδ; simp at hδ; simp [hδ])
  simpa using h

end RateLimit
